import Mathlib

/-!
Shallow embedding of the `resample` package (src/resample.go): a streaming
PCM resampler wrapping the opaque libsoxr engine.  The engine (soxr_create,
soxr_process, soxr_clear, soxr_delete) and the destination io.Writer are
external, so their outcomes enter the model as explicit oracle arguments;
every call the stream makes to them is recorded in an event trace.  Go
float64 sample rates are modelled as exact rationals, Go `int` as ℤ with
Go's truncated division (`Int.tdiv`).
-/

namespace Resample

/-- One call the stream makes to the engine or the destination sink.
`proc framesIn outCap` is a soxr_process call offering `framesIn` input
frames with an output capacity of `outCap` frames; `destWrite d len` is a
blocking write of `len` bytes to destination `d`; `clear` is soxr_clear;
`delete` is soxr_delete. -/
inductive Ev (δ : Type) where
  | proc (framesIn : Int) (outCap : Int)
  | destWrite (dest : δ) (len : Int)
  | clear
  | delete
deriving DecidableEq

/-- The Go `Resampler` struct.  The C handle `resampler soxr_t` is modelled
by the Boolean `resampler` (true iff the handle is non-nil); `inFrameSize`
and `outFrameSize` are, as in the source, the per-sample byte widths of the
input and output formats. -/
structure Resampler (δ : Type) where
  resampler : Bool
  inRate : ℚ
  outRate : ℚ
  channels : Int
  inFrameSize : Int
  outFrameSize : Int
  destination : δ
deriving DecidableEq

/-- Go `int(x)` conversion of a nonNaN float, modelled exactly on ℚ:
truncation toward zero. -/
def goTrunc (q : ℚ) : Int := Int.tdiv q.num (q.den : Int)

/-- The `sizeOf` closure inside `New`: byte width of a sample format
(F32 = 0, F64 = 1, I32 = 2, I16 = 3), unknown formats fail. -/
def sizeOf (format : Int) : Except String Int :=
  if format = 1 then .ok 8
  else if format = 0 then .ok 4
  else if format = 2 then .ok 4
  else if format = 3 then .ok 2
  else .error "invalid format setting"

/-- `New`: the validating factory.  `writer = none` models a nil io.Writer;
`engineCreate` is the outcome of the soxr_create call (the error string soxr
reports, or success). -/
def New (δ : Type) (writer : Option δ) (inputRate outputRate : ℚ)
    (channels inFormat outFormat quality : Int)
    (engineCreate : Except String Unit) : Except String (Resampler δ) :=
  match writer with
  | none => .error "io.Writer is nil"
  | some w =>
    if inputRate ≤ 0 ∨ outputRate ≤ 0 then
      .error "invalid input or output sampling rates"
    else if channels = 0 then
      .error "invalid channels number"
    else if quality < 0 ∨ quality > 6 then
      .error "invalid quality setting"
    else
      match sizeOf inFormat with
      | .error e => .error e
      | .ok inSize =>
        match sizeOf outFormat with
        | .error e => .error e
        | .ok outSize =>
          match engineCreate with
          | .error e => .error e
          | .ok _ =>
            .ok ⟨true, inputRate, outputRate, channels, inSize, outSize, w⟩

/-- Result of a `Write` call: bytes reported consumed, the Go error value,
the calls made to the engine and the destination, and the struct afterwards
(`Write` never assigns to the struct's fields). -/
structure WriteOut (δ : Type) where
  n : Int
  err : Option String
  events : List (Ev δ)
  st : Resampler δ
deriving DecidableEq

/-- `Write`: the streaming hot path.  `p` is the input byte slice; `proc`
is the outcome of the soxr_process call (error string, or the `done` output
frame count it reports); `destW` is the outcome of the destination write. -/
def Write (δ : Type) (r : Resampler δ) (p : List Nat)
    (proc : Except String Int) (destW : Option String) : WriteOut δ :=
  if r.resampler = false then
    ⟨0, some "soxr resampler is nil", [], r⟩
  else if p.length = 0 then
    ⟨0, none, [], r⟩
  else
    let framesIn : Int := Int.tdiv (Int.tdiv (p.length : Int) r.inFrameSize) r.channels
    if framesIn = 0 then
      ⟨0, some "incomplete input frame data", [], r⟩
    else
      let framesOut : Int := goTrunc ((framesIn : ℚ) * (r.outRate / r.inRate))
      if framesOut = 0 then
        ⟨0, some "not enough input to generate output", [], r⟩
      else
        match proc with
        | .error e => ⟨0, some e, [.proc framesIn framesOut], r⟩
        | .ok done =>
          let outLen := done * r.channels * r.outFrameSize
          match destW with
          | some e =>
            ⟨0, some e, [.proc framesIn framesOut, .destWrite r.destination outLen], r⟩
          | none =>
            ⟨(p.length : Int), none,
              [.proc framesIn framesOut, .destWrite r.destination outLen], r⟩

/-- The fixed flush output-frame budget, `framesOut := 4096 * 16`. -/
def flushFramesOut : Int := 4096 * 16

/-- `flush`: drain the engine by a soxr_process call with zero input frames
and the fixed large output budget, writing whatever comes out to the current
destination.  Returns the Go error value and the calls made.  (The source
calls `flush` only after a nil-handle check in `Close`/`Reset`.) -/
def flush (δ : Type) (r : Resampler δ) (proc : Except String Int)
    (destW : Option String) : Option String × List (Ev δ) :=
  match proc with
  | .error e => (some e, [.proc 0 flushFramesOut])
  | .ok done =>
    let outLen := done * r.channels * r.outFrameSize
    match destW with
    | some e => (some e, [.proc 0 flushFramesOut, .destWrite r.destination outLen])
    | none => (none, [.proc 0 flushFramesOut, .destWrite r.destination outLen])

/-- Result of `Close`/`Reset`: the Go error value, the calls made, and the
struct afterwards. -/
structure OpOut (δ : Type) where
  err : Option String
  events : List (Ev δ)
  st : Resampler δ
deriving DecidableEq

/-- `Close`: fails on a nil handle; otherwise runs `flush`, then
soxr_delete, then sets the handle to nil, returning the flush error. -/
def Close (δ : Type) (r : Resampler δ) (proc : Except String Int)
    (destW : Option String) : OpOut δ :=
  if r.resampler = false then
    ⟨some "soxr resampler is nil", [], r⟩
  else
    let f := flush δ r proc destW
    ⟨f.1, f.2 ++ [.delete], { r with resampler := false }⟩

/-- `Reset`: fails on a nil handle; otherwise runs `flush` (against the old
destination), installs the new destination, then soxr_clear, returning the
flush error. -/
def Reset (δ : Type) (r : Resampler δ) (writer : δ) (proc : Except String Int)
    (destW : Option String) : OpOut δ :=
  if r.resampler = false then
    ⟨some "soxr resampler is nil", [], r⟩
  else
    let f := flush δ r proc destW
    ⟨f.1, f.2 ++ [.clear], { r with destination := writer }⟩

/-- Recognizer for the soxr_delete event, used to count handle releases. -/
def Ev.isDelete {δ : Type} : Ev δ → Bool
  | .delete => true
  | _ => false

/-- A concrete active resampler: mono I16 16000 Hz to 16000 Hz,
destination id 0. -/
def r16 : Resampler Nat := ⟨true, 16000, 16000, 1, 2, 2, 0⟩

/-- A concrete active resampler: mono I16 16000 Hz down to 8000 Hz. -/
def rDown : Resampler Nat := ⟨true, 16000, 8000, 1, 2, 2, 0⟩

/-- A concrete closed resampler (handle already nil). -/
def rClosed : Resampler Nat := ⟨false, 16000, 16000, 1, 2, 2, 0⟩

end Resample

namespace Resample

/-- Evaluation helper: one input frame at a 16000 Hz to 8000 Hz ratio has a
zero output-frame budget. -/
lemma goTrunc_rDown_one_frame :
    goTrunc ((Int.tdiv (Int.tdiv (([(0 : Nat), 0].length : Nat) : Int) rDown.inFrameSize)
      rDown.channels : ℚ) * (rDown.outRate / rDown.inRate)) = 0 := by
  have h : Int.tdiv (Int.tdiv (([(0 : Nat), 0].length : Nat) : Int) rDown.inFrameSize)
      rDown.channels = 1 := by decide
  rw [h]
  norm_num [goTrunc, rDown]
  decide

/-- Helper: `Close` on a resampler whose handle is nil is the
protocol-misuse failure, changing nothing. -/
lemma Close_on_closed (δ : Type) (r : Resampler δ) (proc : Except String Int)
    (destW : Option String) (h : r.resampler = false) :
    Close δ r proc destW = ⟨some "soxr resampler is nil", [], r⟩ := by
  simp [Close, h]

/-- Helper: `Write` on a resampler whose handle is nil is the
protocol-misuse failure, changing nothing. -/
lemma Write_on_closed (δ : Type) (r : Resampler δ) (p : List Nat)
    (proc : Except String Int) (destW : Option String) (h : r.resampler = false) :
    Write δ r p proc destW = ⟨0, some "soxr resampler is nil", [], r⟩ := by
  simp [Write, h]

/-- Evaluation helper: one input frame at the identity 16000 Hz to
16000 Hz ratio has a nonzero output-frame budget. -/
lemma goTrunc_r16_two_bytes :
    goTrunc ((Int.tdiv (Int.tdiv (([(0 : Nat), 0].length : Nat) : Int) r16.inFrameSize)
      r16.channels : ℚ) * (r16.outRate / r16.inRate)) ≠ 0 := by
  have h : Int.tdiv (Int.tdiv (([(0 : Nat), 0].length : Nat) : Int) r16.inFrameSize)
      r16.channels = 1 := by decide
  rw [h]
  norm_num [goTrunc, r16]

end Resample

namespace Resample

/-- Claim C1, counterexample: the claim says every `Write` on an active
resampler whose byte length is not a multiple of `inputFrameBytes`
(channels times the input sample width) fails with the incomplete-frame
error and consumes nothing.  On `r16` (mono I16, frame = 2 bytes) a
3-byte input is not a multiple of 2, yet `Write` succeeds, reports all 3
bytes consumed, and silently drops the trailing byte. -/
theorem C1_counterexample :
    (3 : Int) % (r16.channels * r16.inFrameSize) ≠ 0 ∧
    Write Nat r16 [0, 0, 0] (.ok 1) none =
      ⟨3, none, [.proc 1 1, .destWrite 0 2], r16⟩ := by
  refine ⟨by decide, ?_⟩
  norm_num [Write, r16, goTrunc]
  decide

/-- Claim C1, amended: on an active resampler, `Write` fails with the
incomplete-frame error, consumes nothing, touches neither the engine nor
the destination, and leaves the struct unchanged (hence Active) exactly
on the inputs whose nonzero byte count contains no complete frame
(`framesIn = 0`); inputs of at least one full frame whose length is not a
multiple of the frame size proceed, the trailing partial-frame bytes
being ignored yet reported consumed on success. -/
theorem C1_incomplete_frame_amended (δ : Type) (r : Resampler δ) (p : List Nat)
    (proc : Except String Int) (destW : Option String)
    (h : r.resampler = true) (hp : p.length ≠ 0)
    (hin : Int.tdiv (Int.tdiv ((p.length : Nat) : Int) r.inFrameSize) r.channels = 0) :
    Write δ r p proc destW = ⟨0, some "incomplete input frame data", [], r⟩ := by
  simp [Write, h, hp, hin]

/-- Claim C1, amended, witness: a single byte on the mono I16 resampler
`r16` is rejected as an incomplete frame. -/
theorem C1_incomplete_frame_amended_witness :
    Write Nat r16 [0] (.ok 1) none = ⟨0, some "incomplete input frame data", [], r16⟩ :=
  C1_incomplete_frame_amended Nat r16 [0] (.ok 1) none rfl (by decide) (by decide)

end Resample

namespace Resample

/-- Claim C2: every `Write` on an active resampler is all-or-nothing — it
returns either the full input length with no error, or 0 consumed with an
error; and when the destination write fails after a successful engine
call, the whole call returns that destination error with 0 consumed even
though the engine was already invoked on the input. -/
theorem C2_all_or_nothing (δ : Type) (r : Resampler δ) (h : r.resampler = true) :
    (∀ (p : List Nat) (proc : Except String Int) (destW : Option String),
      ((Write δ r p proc destW).n = (p.length : Int) ∧ (Write δ r p proc destW).err = none) ∨
      ((Write δ r p proc destW).n = 0 ∧ (Write δ r p proc destW).err ≠ none)) ∧
    (∀ (p : List Nat) (done : Int) (e : String),
      p.length ≠ 0 →
      Int.tdiv (Int.tdiv ((p.length : Nat) : Int) r.inFrameSize) r.channels ≠ 0 →
      goTrunc ((Int.tdiv (Int.tdiv ((p.length : Nat) : Int) r.inFrameSize) r.channels : ℚ) *
        (r.outRate / r.inRate)) ≠ 0 →
      (Write δ r p (.ok done) (some e)).n = 0 ∧
      (Write δ r p (.ok done) (some e)).err = some e ∧
      (Write δ r p (.ok done) (some e)).events ≠ []) := by
  constructor
  · intro p proc destW
    by_cases hp : p.length = 0
    · left
      simp [Write, h, hp]
    · by_cases hin :
        Int.tdiv (Int.tdiv ((p.length : Nat) : Int) r.inFrameSize) r.channels = 0
      · right
        simp [Write, h, hp, hin]
      · by_cases hout :
          goTrunc ((Int.tdiv (Int.tdiv ((p.length : Nat) : Int) r.inFrameSize)
            r.channels : ℚ) * (r.outRate / r.inRate)) = 0
        · right
          simp [Write, h, hp, hin, hout]
        · cases proc with
          | error e =>
            right
            simp [Write, h, hp, hin, hout]
          | ok done =>
            cases destW with
            | some e =>
              right
              simp [Write, h, hp, hin, hout]
            | none =>
              left
              simp [Write, h, hp, hin, hout]
  · intro p done e hp hin hout
    simp [Write, h, hp, hin, hout]

/-- Claim C2, witness: on the identity-rate resampler `r16`, a successful
2-byte write reports 2 consumed with no error, and the same write with a
failing destination reports 0 consumed with the destination's error after
having invoked the engine. -/
theorem C2_all_or_nothing_witness :
    (((Write Nat r16 [0, 0] (.ok 1) none).n = (([(0 : Nat), 0].length : Nat) : Int) ∧
      (Write Nat r16 [0, 0] (.ok 1) none).err = none) ∨
     ((Write Nat r16 [0, 0] (.ok 1) none).n = 0 ∧
      (Write Nat r16 [0, 0] (.ok 1) none).err ≠ none)) ∧
    ((Write Nat r16 [0, 0] (.ok 1) (some "disk full")).n = 0 ∧
     (Write Nat r16 [0, 0] (.ok 1) (some "disk full")).err = some "disk full" ∧
     (Write Nat r16 [0, 0] (.ok 1) (some "disk full")).events ≠ []) :=
  ⟨(C2_all_or_nothing Nat r16 rfl).1 [0, 0] (.ok 1) none,
   (C2_all_or_nothing Nat r16 rfl).2 [0, 0] 1 "disk full" (by decide) (by decide)
     goTrunc_r16_two_bytes⟩

end Resample

namespace Resample

/-- Claim C3: after a `Close` on an active resampler the handle is nil
(Closed); a second `Close` then fails with the protocol-misuse error
rather than succeeding as a no-op, and a `Write` after the close also
fails with the protocol-misuse error, consuming nothing. -/
theorem C3_closed_is_terminal (δ : Type) (r : Resampler δ)
    (proc1 proc2 proc3 : Except String Int) (destW1 destW2 destW3 : Option String)
    (p : List Nat) (h : r.resampler = true) :
    (Close δ r proc1 destW1).st.resampler = false ∧
    Close δ (Close δ r proc1 destW1).st proc2 destW2 =
      ⟨some "soxr resampler is nil", [], (Close δ r proc1 destW1).st⟩ ∧
    Write δ (Close δ r proc1 destW1).st p proc3 destW3 =
      ⟨0, some "soxr resampler is nil", [], (Close δ r proc1 destW1).st⟩ := by
  have hst : (Close δ r proc1 destW1).st.resampler = false := by
    simp [Close, h]
  exact ⟨hst, Close_on_closed δ _ proc2 destW2 hst, Write_on_closed δ _ p proc3 destW3 hst⟩

/-- Claim C3, witness: closing `r16` then closing or writing again fails
with the protocol-misuse error. -/
theorem C3_closed_is_terminal_witness :
    (Close Nat r16 (.ok 0) none).st.resampler = false ∧
    Close Nat (Close Nat r16 (.ok 0) none).st (.ok 0) none =
      ⟨some "soxr resampler is nil", [], (Close Nat r16 (.ok 0) none).st⟩ ∧
    Write Nat (Close Nat r16 (.ok 0) none).st [0, 0] (.ok 1) none =
      ⟨0, some "soxr resampler is nil", [], (Close Nat r16 (.ok 0) none).st⟩ :=
  C3_closed_is_terminal Nat r16 (.ok 0) (.ok 0) (.ok 1) none none none [0, 0] rfl

/-- Claim C4: the first `Close` of an active resampler runs `flush`, then
the soxr_delete, transitions to Closed whatever the flush outcome was,
returns exactly the flush error, and releases the handle exactly once. -/
theorem C4_close_flushes_and_releases (δ : Type) (r : Resampler δ)
    (proc : Except String Int) (destW : Option String) (h : r.resampler = true) :
    (Close δ r proc destW).st.resampler = false ∧
    (Close δ r proc destW).err = (flush δ r proc destW).1 ∧
    (Close δ r proc destW).events = (flush δ r proc destW).2 ++ [.delete] ∧
    ((Close δ r proc destW).events.countP (fun e => Ev.isDelete e)) = 1 := by
  refine ⟨by simp [Close, h], by simp [Close, h], by simp [Close, h], ?_⟩
  cases proc with
  | error e => simp [Close, flush, h, Ev.isDelete]
  | ok done =>
    cases destW with
    | some e => simp [Close, flush, h, Ev.isDelete]
    | none => simp [Close, flush, h, Ev.isDelete]

/-- Claim C4, witness: closing `r16` with a failing flush still closes the
stream, still deletes the handle exactly once, and reports the flush
error. -/
theorem C4_close_flushes_and_releases_witness :
    (Close Nat r16 (.error "flush failed") none).st.resampler = false ∧
    (Close Nat r16 (.error "flush failed") none).err =
      (flush Nat r16 (.error "flush failed") none).1 ∧
    (Close Nat r16 (.error "flush failed") none).events =
      (flush Nat r16 (.error "flush failed") none).2 ++ [.delete] ∧
    ((Close Nat r16 (.error "flush failed") none).events.countP
      (fun e => Ev.isDelete e)) = 1 :=
  C4_close_flushes_and_releases Nat r16 (.error "flush failed") none rfl

/-- Claim C5: `Reset` on a closed resampler fails with the
protocol-misuse error and changes nothing; on an active resampler it
installs the new destination, stays Active, returns exactly the flush
error, clears the engine state, and every byte written during the call
goes to the old destination — nothing reaches the new one. -/
theorem C5_reset_contract (δ : Type) (r : Resampler δ) (w : δ)
    (proc : Except String Int) (destW : Option String) :
    (r.resampler = false →
      Reset δ r w proc destW = ⟨some "soxr resampler is nil", [], r⟩) ∧
    (r.resampler = true →
      (Reset δ r w proc destW).st.destination = w ∧
      (Reset δ r w proc destW).st.resampler = true ∧
      (Reset δ r w proc destW).err = (flush δ r proc destW).1 ∧
      (∀ (d : δ) (len : Int),
        Ev.destWrite d len ∈ (Reset δ r w proc destW).events → d = r.destination) ∧
      Ev.clear ∈ (Reset δ r w proc destW).events) := by
  constructor
  · intro h
    simp [Reset, h]
  · intro h
    refine ⟨by simp [Reset, h], by simp [Reset, h], by simp [Reset, h], ?_, ?_⟩
    · intro d len hmem
      cases proc with
      | error e =>
        simp [Reset, flush, h] at hmem
      | ok done =>
        cases destW with
        | some e =>
          simp [Reset, flush, h] at hmem
          exact hmem.1
        | none =>
          simp [Reset, flush, h] at hmem
          exact hmem.1
    · cases proc with
      | error e => simp [Reset, flush, h]
      | ok done =>
        cases destW with
        | some e => simp [Reset, flush, h]
        | none => simp [Reset, flush, h]

/-- Claim C5, witness: resetting `r16` onto destination 7 swaps the
destination, stays active, and the bytes flushed during the call went to
the old destination 0; resetting the closed resampler fails. -/
theorem C5_reset_contract_witness :
    Reset Nat rClosed 7 (.ok 0) none = ⟨some "soxr resampler is nil", [], rClosed⟩ ∧
    (Reset Nat r16 7 (.ok 4) none).st.destination = 7 ∧
    (Reset Nat r16 7 (.ok 4) none).st.resampler = true ∧
    Ev.clear ∈ (Reset Nat r16 7 (.ok 4) none).events :=
  ⟨(C5_reset_contract Nat rClosed 7 (.ok 0) none).1 rfl,
   ((C5_reset_contract Nat r16 7 (.ok 4) none).2 rfl).1,
   ((C5_reset_contract Nat r16 7 (.ok 4) none).2 rfl).2.1,
   ((C5_reset_contract Nat r16 7 (.ok 4) none).2 rfl).2.2.2.2⟩

/-- Claim C6: on an active resampler, when the input holds at least one
full frame but the truncated output budget `framesIn * outRate / inRate`
is zero, `Write` fails with the insufficient-input error, reports 0
consumed, and makes no engine or destination call. -/
theorem C6_zero_output_budget (δ : Type) (r : Resampler δ) (p : List Nat)
    (proc : Except String Int) (destW : Option String)
    (h : r.resampler = true) (hp : p.length ≠ 0)
    (hin : 1 ≤ Int.tdiv (Int.tdiv ((p.length : Nat) : Int) r.inFrameSize) r.channels)
    (hout : goTrunc ((Int.tdiv (Int.tdiv ((p.length : Nat) : Int) r.inFrameSize)
      r.channels : ℚ) * (r.outRate / r.inRate)) = 0) :
    Write δ r p proc destW = ⟨0, some "not enough input to generate output", [], r⟩ := by
  have hne : Int.tdiv (Int.tdiv ((p.length : Nat) : Int) r.inFrameSize) r.channels ≠ 0 := by
    omega
  simp [Write, h, hp, hne, hout]

/-- Claim C6, witness: one full frame (2 bytes) on the 16000 Hz to
8000 Hz downsampler has a zero output budget, so `Write` fails with the
insufficient-input error and no engine call. -/
theorem C6_zero_output_budget_witness :
    Write Nat rDown [0, 0] (.ok 1) none =
      ⟨0, some "not enough input to generate output", [], rDown⟩ :=
  C6_zero_output_budget Nat rDown [0, 0] (.ok 1) none rfl (by decide) (by decide)
    goTrunc_rDown_one_frame

end Resample

namespace Resample

/-- Claim C7: the claim says construction fails with a configuration
error for every channels value below 1.  The source only rejects
`channels == 0`: with channels = -1 (all other parameters valid and the
engine create reporting success) `New` does not fail — the negative
channel count is passed on to the engine and a resampler is built. -/
theorem C7_negative_channels_accepted :
    (-1 : Int) < 1 ∧
    New Nat (some 0) 16000 8000 (-1) 3 3 2 (.ok ()) =
      .ok ⟨true, 16000, 8000, -1, 2, 2, 0⟩ :=
  ⟨by decide, by rfl⟩

/-- Claim C8, counterexample: the claim says construction succeeds only
for quality in the enumeration {0, 1, 2, 4, 6}.  Quality 3 is outside the
enumeration yet `New` succeeds with it. -/
theorem C8_counterexample :
    ((3 : Int) ≠ 0 ∧ (3 : Int) ≠ 1 ∧ (3 : Int) ≠ 2 ∧ (3 : Int) ≠ 4 ∧ (3 : Int) ≠ 6) ∧
    New Nat (some 0) 16000 8000 2 3 3 3 (.ok ()) =
      .ok ⟨true, 16000, 8000, 2, 2, 2, 0⟩ :=
  ⟨by decide, by rfl⟩

/-- Claim C8, amended: with an otherwise valid configuration, `New`
rejects a quality value with the configuration error exactly when it lies
outside the interval 0..6; every integer quality from 0 to 6 — including
3 and 5, which have no named constant — passes validation and constructs
the resampler. -/
theorem C8_quality_range_amended (q : Int) :
    (q < 0 ∨ 6 < q →
      New Nat (some 0) 16000 8000 2 3 3 q (.ok ()) = .error "invalid quality setting") ∧
    (0 ≤ q → q ≤ 6 →
      New Nat (some 0) 16000 8000 2 3 3 q (.ok ()) = .ok ⟨true, 16000, 8000, 2, 2, 2, 0⟩) := by
  constructor
  · intro hq
    have h1 : ¬((16000 : ℚ) ≤ 0 ∨ (8000 : ℚ) ≤ 0) := by norm_num
    have h2 : ¬(2 : Int) = 0 := by decide
    have h3 : q < 0 ∨ q > 6 := hq
    simp [New, h1, h2, h3]
  · intro h0 h6
    have h1 : ¬((16000 : ℚ) ≤ 0 ∨ (8000 : ℚ) ≤ 0) := by norm_num
    have h2 : ¬(2 : Int) = 0 := by decide
    have h3 : ¬(q < 0 ∨ q > 6) := by omega
    simp [New, h1, h2, h3, sizeOf]

/-- Claim C8, amended, witness: quality 7 is rejected while quality 3 is
accepted. -/
theorem C8_quality_range_amended_witness :
    New Nat (some 0) 16000 8000 2 3 3 7 (.ok ()) = .error "invalid quality setting" ∧
    New Nat (some 0) 16000 8000 2 3 3 3 (.ok ()) = .ok ⟨true, 16000, 8000, 2, 2, 2, 0⟩ :=
  ⟨(C8_quality_range_amended 7).1 (by decide),
   (C8_quality_range_amended 3).2 (by decide) (by decide)⟩

/-- Claim C9: a zero-length `Write` on an active resampler is a no-op —
0 bytes consumed, no error, no engine or destination call, struct
unchanged. -/
theorem C9_zero_length_noop (δ : Type) (r : Resampler δ)
    (proc : Except String Int) (destW : Option String) (h : r.resampler = true) :
    Write δ r [] proc destW = ⟨0, none, [], r⟩ := by
  simp [Write, h]

/-- Claim C9, witness: the zero-length no-op on `r16`. -/
theorem C9_zero_length_noop_witness :
    Write Nat r16 [] (.ok 0) none = ⟨0, none, [], r16⟩ :=
  C9_zero_length_noop Nat r16 (.ok 0) none rfl

/-- Claim C10: the nil-handle check precedes the empty-input check in
`Write`, so a zero-length write on a closed resampler returns the
protocol-misuse error with 0 consumed instead of the zero-length no-op
success. -/
theorem C10_closed_check_precedes_empty (δ : Type) (r : Resampler δ)
    (proc : Except String Int) (destW : Option String) (h : r.resampler = false) :
    Write δ r [] proc destW = ⟨0, some "soxr resampler is nil", [], r⟩ :=
  Write_on_closed δ r [] proc destW h

/-- Claim C10, witness: the zero-length write on the closed resampler
fails with the protocol-misuse error. -/
theorem C10_closed_check_precedes_empty_witness :
    Write Nat rClosed [] (.ok 0) none = ⟨0, some "soxr resampler is nil", [], rClosed⟩ :=
  C10_closed_check_precedes_empty Nat rClosed (.ok 0) none rfl

end Resample
